import Mathlib

/-!
Verification of the Linux system-tray core of the tao repository
(src/platform_impl/linux/system_tray.rs), shallowly embedded in Lean.

Paths are modelled as UTF-8 strings with the semantics of Rust's
std::path on Unix (no prefixes): components are separated by one or
more slashes, a leading slash is the root, occurrences of the "."
component are normalized away except at the beginning of a relative
path, and trailing separators are ignored.  A Rust panic (expect /
todo) is embedded as the value none of an Option result.
-/

set_option autoImplicit false
set_option linter.unusedVariables false

namespace Tao

/-- A single non-root component of a Unix path, as in Rust's
std::path::Component (the RootDir case is tracked separately as an
absolute-path flag). -/
inductive Component where
  | curDir
  | parentDir
  | normal (s : String)
deriving DecidableEq

/-- Split a list of characters on a separator character.  Mirrors the
splitting that std::path performs on the path separator, done here by
structural recursion so concrete paths evaluate by rfl/decide. -/
def splitSep (sep : Char) : List Char → List (List Char)
  | [] => [[]]
  | c :: cs =>
    let r := splitSep sep cs
    if c = sep then [] :: r
    else
      match r with
      | [] => [[c]]
      | p :: ps => (c :: p) :: ps

/-- The non-empty slash-separated pieces of a path string (repeated and
trailing separators collapse, as in std::path components). -/
def pathParts (s : String) : List String :=
  ((splitSep '/' s.data).filter (fun p => p ≠ [])).map (fun p => String.mk p)

/-- Classify one raw piece as a std::path component. -/
def toComponent (p : String) : Component :=
  if p = "." then Component.curDir
  else if p = ".." then Component.parentDir
  else Component.normal p

/-- A path is absolute when its text opens with the separator. -/
def isAbsolute (s : String) : Bool :=
  match s.data with
  | [] => false
  | c :: _ => c = '/'

/-- The normalized component list of a path together with its
absolute-path flag: "." components are dropped except when they open a
relative path, exactly as std::path::Path::components does on Unix. -/
def pathComponents (s : String) : Bool × List Component :=
  let absolute := isAbsolute s
  let comps := (pathParts s).map toComponent
  let kept :=
    match comps with
    | Component.curDir :: rest =>
      if absolute then rest.filter (fun c => c ≠ Component.curDir)
      else Component.curDir :: rest.filter (fun c => c ≠ Component.curDir)
    | cs => cs.filter (fun c => c ≠ Component.curDir)
  (absolute, kept)

/-- Rust Path::file_name: the final component when it is a normal
component; none when the path is empty or ends in the root, "." or
"..". -/
def fileName (s : String) : Option String :=
  match (pathComponents s).2.getLast? with
  | some (Component.normal n) => some n
  | _ => none

/-- The stem of a file name: everything before the final dot, except
that a name whose only dot is the leading one (such as a Unix hidden
file) is its own stem — the rule of Rust Path::file_stem. -/
def fileStemOfName (name : String) : String :=
  let parts := splitSep '.' name.data
  match parts with
  | [] => name
  | [_] => name
  | _ =>
    let pre := parts.dropLast
    if pre = [[]] then name else String.mk (List.intercalate ['.'] pre)

/-- Rust Path::file_stem on a path string. -/
def file_stem (s : String) : Option String :=
  (fileName s).map fileStemOfName

/-- Print a component back as path text. -/
def Component.render : Component → String
  | Component.curDir => "."
  | Component.parentDir => ".."
  | Component.normal s => s

/-- Rebuild path text from an absolute flag and a component list. -/
def renderPath (absolute : Bool) (cs : List Component) : String :=
  let body := String.mk (List.intercalate ['/'] (cs.map (fun c => (Component.render c).data)))
  if absolute then "/" ++ body else body

/-- Rust Path::parent: the path without its final component; none when
the path is empty or is only a root. -/
def parent (s : String) : Option String :=
  match pathComponents s with
  | (_, []) => none
  | (absolute, cs) => some (renderPath absolute cs.dropLast)

example : file_stem "/icons/app.png" = some "app" := by decide
example : parent "/icons/app.png" = some "/icons" := by decide
example : file_stem "/" = none := by decide
example : parent "/" = none := by decide
example : file_stem "app.png" = some "app" := by decide
example : parent "app.png" = some "" := by decide
example : file_stem ".gitignore" = some ".gitignore" := by decide
example : file_stem "a.tar.gz" = some "a.tar" := by decide
example : parent "/foo" = some "/" := by decide
example : parent "./foo" = some "." := by decide
example : parent "" = none := by decide
example : file_stem "/a/.." = none := by decide

/-! ### Data model

Types from the rest of the tao crate (crate::menu, crate::accelerator,
crate::error) and from the external ksni crate, as used by
system_tray.rs. -/

/-- ksni::Status. -/
inductive Status where
  | Passive
  | Active
  | NeedsAttention
deriving DecidableEq

/-- The shapes of ksni::MenuItem that system_tray.rs constructs:
StandardItem and CheckmarkItem, with the fields it sets (label,
enabled, checked); the remaining fields stay at Default and carry no
state the claims touch.  Separator is the only other shape mentioned
by the spec's data model at this level. -/
inductive KsniMenuItem where
  | Standard (label : String) (enabled : Bool)
  | Checkmark (label : String) (enabled : Bool) (checked : Bool)
  | Separator
deriving DecidableEq

/-- TrayMenuItem(pub Arc<RwLock<ksni::MenuItem<KsniTray>>>): in the pure
embedding the shared cell holds its current value. -/
structure TrayMenuItem where
  item : KsniMenuItem
deriving DecidableEq

/-- TrayMenu(Vec<TrayMenuItem>). -/
structure TrayMenu where
  items : List TrayMenuItem
deriving DecidableEq

/-- Modelled from the spec: crate::menu::MenuId is not under src/;
the spec calls it an opaque identifier, embedded as a wrapped number. -/
structure MenuId where
  id : Nat
deriving DecidableEq

/-- Modelled from the spec: crate::accelerator::Accelerator is not
under src/; the spec calls it an optional key-combination, carried
through add_item unchanged, embedded as its textual description. -/
structure Accelerator where
  keys : String
deriving DecidableEq

/-- Modelled from the spec: crate::menu::MenuType is not under src/;
add_item stores the argument unchanged, so an opaque two-variant
enumeration suffices. -/
inductive MenuType where
  | MenuBar
  | ContextMenu
deriving DecidableEq

/-- Modelled from the spec: crate::menu::MenuItem (platform-native
item selector, About/Quit-style) is not under src/; add_native_item
ignores its value entirely. -/
inductive MenuItem where
  | About (name : String)
  | Quit
  | Separator
deriving DecidableEq

/-- super::menu::InnerItem, restricted to the constructor this file
uses (its defining module is not under src/; the usage here fixes the
Ksni shape). -/
inductive InnerItem where
  | Ksni (item : TrayMenuItem)
deriving DecidableEq

/-- super::menu::MenuItemAttributes with the fields assigned in
add_item (its defining module is not under src/; the field names and
their values are fixed by the construction in add_item). -/
structure MenuItemAttributes where
  id : MenuId
  key : Option Accelerator
  selected : Bool
  enabled : Bool
  menu_type : MenuType
  inner_item : InnerItem
deriving DecidableEq

/-- crate::menu::CustomMenuItem(pub MenuItemAttributes), the opaque
handle add_item returns. -/
structure CustomMenuItem where
  attrs : MenuItemAttributes
deriving DecidableEq

/-- Modelled from the spec: crate::error::OsError is not under src/;
the spec's error taxonomy for construction is ConfigurationError. -/
inductive OsError where
  | ConfigurationError
deriving DecidableEq

/-- KsniTray: properties and signals of the tray.  The glib Sender for
window requests is an external channel handle with no state of its
own; it is embedded as Unit. -/
structure KsniTray where
  title : String
  icon_name : String
  icon_theme_path : String
  status : Status
  menu : Option TrayMenu
  sender : Unit
deriving DecidableEq

/-! ### Operations of system_tray.rs -/

/-- KsniTray::split_icon: file stem and parent directory of the icon
path.  The two expect calls panic when either part is missing; the
panic is the none result. -/
def KsniTray.split_icon (icon : String) : Option (String × String) :=
  match file_stem icon, parent icon with
  | some name, some theme => some (name, theme)
  | _, _ => none

/-- KsniTray::new: initial state from a title and an icon path, menu
empty, status Active.  none is the expect panic inside split_icon. -/
def KsniTray.new (title : String) (icon : String) (sender : Unit) : Option KsniTray :=
  (KsniTray.split_icon icon).map fun p =>
    { title := title
      icon_name := p.1
      icon_theme_path := p.2
      menu := none
      status := Status.Active
      sender := sender }

/-- KsniTray::new_with_menu: as new, but with the given menu. -/
def KsniTray.new_with_menu (title : String) (icon : String) (menu : TrayMenu)
    (sender : Unit) : Option KsniTray :=
  (KsniTray.split_icon icon).map fun p =>
    { title := title
      icon_name := p.1
      icon_theme_path := p.2
      menu := some menu
      status := Status.Active
      sender := sender }

/-- KsniTray::set_icon: recompute both icon fields from the new path;
none is the expect panic inside split_icon. -/
def KsniTray.set_icon (self : KsniTray) (icon : String) : Option KsniTray :=
  (KsniTray.split_icon icon).map fun p =>
    { self with icon_name := p.1, icon_theme_path := p.2 }

/-- KsniTray::set_menu: store the new menu. -/
def KsniTray.set_menu (self : KsniTray) (menu : TrayMenu) : KsniTray :=
  { self with menu := some menu }

/-- The ksni::Tray::menu trait method of KsniTray is todo!(): every
protocol menu query panics; the panic is the none result. -/
def KsniTray.menuQuery (self : KsniTray) : Option (List KsniMenuItem) :=
  none

/-- The entries of the tray state reachable through its menu field. -/
def KsniTray.menuEntries (self : KsniTray) : List TrayMenuItem :=
  match self.menu with
  | some m => m.items
  | none => []

/-- SystemTray: holds the ksni::Handle of the spawned service; the
handle's referent is the live KsniTray state the service owns. -/
structure SystemTray where
  tray_handle : KsniTray
deriving DecidableEq

/-- SystemTray::new: constructs the service from the tray state,
takes its handle and spawns the service thread. -/
def SystemTray.new (tray : KsniTray) : SystemTray :=
  { tray_handle := tray }

/-- SystemTray::set_icon: handle.update running KsniTray::set_icon on
the live state; none is the panic inside the updater. -/
def SystemTray.set_icon (self : SystemTray) (icon : String) : Option SystemTray :=
  (self.tray_handle.set_icon icon).map fun t => { tray_handle := t }

/-- SystemTray::set_menu: handle.update running KsniTray::set_menu on
the live state. -/
def SystemTray.set_menu (self : SystemTray) (tray_menu : TrayMenu) : SystemTray :=
  { tray_handle := self.tray_handle.set_menu tray_menu }

/-- SystemTrayBuilder. -/
structure SystemTrayBuilder where
  tray_menu : Option TrayMenu
  icon : String
deriving DecidableEq

/-- SystemTrayBuilder::new. -/
def SystemTrayBuilder.new (icon : String) (tray_menu : Option TrayMenu) : SystemTrayBuilder :=
  { tray_menu := tray_menu, icon := icon }

/-- Outcome of SystemTrayBuilder::build, whose Rust type is
Result<RootSystemTray, OsError>: ok is the Ok value (the service
thread has been spawned), err is the Err value (the code never builds
one), and panicked is the expect panic escaping from split_icon before
SystemTray::new runs. -/
inductive BuildResult where
  | panicked
  | ok (tray : SystemTray)
  | err (e : OsError)
deriving DecidableEq

/-- SystemTrayBuilder::build: make the KsniTray (with or without the
menu), then SystemTray::new spawns the service.  A panic in
KsniTray::new aborts before any thread is spawned. -/
def SystemTrayBuilder.build (self : SystemTrayBuilder) (sender : Unit) : BuildResult :=
  let tray :=
    match self.tray_menu with
    | some m => KsniTray.new_with_menu "tao application" self.icon m sender
    | none => KsniTray.new "tao application" self.icon sender
  match tray with
  | none => BuildResult.panicked
  | some t => BuildResult.ok (SystemTray.new t)

/-- How many service threads a build outcome has spawned:
ksni::TrayService::spawn runs exactly once inside SystemTray::new on
the success path and never when construction aborted earlier. -/
def BuildResult.threadsSpawned : BuildResult → Nat
  | BuildResult.ok _ => 1
  | _ => 0

/-- TrayMenu::new. -/
def TrayMenu.new : TrayMenu :=
  { items := [] }

/-- TrayMenu::add_item: builds a CheckmarkItem when selected, else a
StandardItem, wraps it in a shared cell and returns it inside a
CustomMenuItem handle.  The receiver is &mut self; the first
component of the result is the receiver's state after the call. -/
def TrayMenu.add_item (self : TrayMenu) (menu_id : MenuId) (title : String)
    (accelerators : Option Accelerator) (enabled : Bool) (selected : Bool)
    (menu_type : MenuType) : TrayMenu × CustomMenuItem :=
  let item : KsniMenuItem :=
    if selected then
      KsniMenuItem.Checkmark title enabled selected
    else
      KsniMenuItem.Standard title enabled
  let cell : TrayMenuItem := { item := item }
  (self,
   { attrs :=
      { id := menu_id
        key := accelerators
        selected := selected
        enabled := enabled
        menu_type := menu_type
        inner_item := InnerItem.Ksni cell } })

/-- TrayMenu::add_native_item: returns None and touches nothing. -/
def TrayMenu.add_native_item (self : TrayMenu) (item : MenuItem)
    (menu_type : MenuType) : TrayMenu × Option CustomMenuItem :=
  (self, none)

/-- TrayMenu::add_submenu: empty body; the receiver is returned
unchanged. -/
def TrayMenu.add_submenu (self : TrayMenu) (title : String) (enabled : Bool)
    (submenu : TrayMenu) : TrayMenu :=
  self

/-- The arguments of one add_item call, for reasoning about call
sequences. -/
structure AddItemArgs where
  menu_id : MenuId
  title : String
  accelerators : Option Accelerator
  enabled : Bool
  selected : Bool
  menu_type : MenuType
deriving DecidableEq

/-- Run a sequence of add_item calls against a menu, keeping the
receiver state threaded through (handles are dropped). -/
def TrayMenu.applyAddItems (self : TrayMenu) (calls : List AddItemArgs) : TrayMenu :=
  calls.foldl
    (fun acc a => (acc.add_item a.menu_id a.title a.accelerators a.enabled a.selected a.menu_type).1)
    self

/-- A concrete tray state, as built from the spec's scenario icon. -/
def sampleTray : KsniTray :=
  { title := "tao application"
    icon_name := "app"
    icon_theme_path := "/icons"
    status := Status.Active
    menu := none
    sender := () }

/-! ### Claims -/

/-- Claim C1 as stated is false: on the icon path that is only the
root, which has neither a file stem nor a parent directory, build does
not return a ConfigurationError — the expect inside split_icon panics
instead. -/
theorem C1_counterexample :
    file_stem "/" = none ∧ parent "/" = none ∧
    SystemTrayBuilder.build (SystemTrayBuilder.new "/" none) () = BuildResult.panicked ∧
    BuildResult.panicked ≠ BuildResult.err OsError.ConfigurationError := by
  refine ⟨by decide, by decide, by decide, by decide⟩

/-- Claim C1 amended: for every icon path with no file stem or no
parent directory, build panics (the expect inside split_icon) —
construction aborts before SystemTray::new runs, so no service thread
is spawned; no ConfigurationError and no success value is returned. -/
theorem C1_build_panics (icon : String) (m : Option TrayMenu)
    (h : file_stem icon = none ∨ parent icon = none) :
    SystemTrayBuilder.build (SystemTrayBuilder.new icon m) () = BuildResult.panicked ∧
    (SystemTrayBuilder.build (SystemTrayBuilder.new icon m) ()).threadsSpawned = 0 := by
  have hsplit : KsniTray.split_icon icon = none := by
    unfold KsniTray.split_icon
    rcases h with h | h <;>
      cases hf : file_stem icon <;> cases hp : parent icon <;> simp_all
  have hb : SystemTrayBuilder.build (SystemTrayBuilder.new icon m) () = BuildResult.panicked := by
    cases m <;>
      simp [SystemTrayBuilder.build, SystemTrayBuilder.new, KsniTray.new,
        KsniTray.new_with_menu, hsplit]
  exact ⟨hb, by rw [hb]; rfl⟩

/-- Witness for C1_build_panics at the root path. -/
theorem C1_build_panics_witness :
    (file_stem "/" = none ∨ parent "/" = none) ∧
    (SystemTrayBuilder.build (SystemTrayBuilder.new "/" none) () = BuildResult.panicked ∧
     (SystemTrayBuilder.build (SystemTrayBuilder.new "/" none) ()).threadsSpawned = 0) :=
  ⟨Or.inl (by decide), C1_build_panics "/" none (Or.inl (by decide))⟩

/-- Claim C2: for every icon path with both a file stem and a parent
directory, build succeeds, and the constructed tray state carries
exactly the stem as icon_name, exactly the parent as icon_theme_path,
and status Active. -/
theorem C2_build_success (icon stem dir : String) (m : Option TrayMenu)
    (hs : file_stem icon = some stem) (hp : parent icon = some dir) :
    ∃ t : SystemTray,
      SystemTrayBuilder.build (SystemTrayBuilder.new icon m) () = BuildResult.ok t ∧
      t.tray_handle.icon_name = stem ∧
      t.tray_handle.icon_theme_path = dir ∧
      t.tray_handle.status = Status.Active := by
  have hsplit : KsniTray.split_icon icon = some (stem, dir) := by
    unfold KsniTray.split_icon; rw [hs, hp]
  cases m with
  | none =>
    refine ⟨SystemTray.new
      { title := "tao application", icon_name := stem, icon_theme_path := dir,
        menu := none, status := Status.Active, sender := () }, ?_, rfl, rfl, rfl⟩
    simp [SystemTrayBuilder.build, SystemTrayBuilder.new, KsniTray.new, hsplit,
      SystemTray.new]
  | some menu0 =>
    refine ⟨SystemTray.new
      { title := "tao application", icon_name := stem, icon_theme_path := dir,
        menu := some menu0, status := Status.Active, sender := () }, ?_, rfl, rfl, rfl⟩
    simp [SystemTrayBuilder.build, SystemTrayBuilder.new, KsniTray.new_with_menu, hsplit,
      SystemTray.new]

/-- Witness for C2_build_success on the spec's scenario path. -/
theorem C2_build_success_witness :
    file_stem "/icons/app.png" = some "app" ∧
    parent "/icons/app.png" = some "/icons" ∧
    (∃ t : SystemTray,
      SystemTrayBuilder.build (SystemTrayBuilder.new "/icons/app.png" none) () =
        BuildResult.ok t ∧
      t.tray_handle.icon_name = "app" ∧
      t.tray_handle.icon_theme_path = "/icons" ∧
      t.tray_handle.status = Status.Active) :=
  ⟨by decide, by decide,
   C2_build_success "/icons/app.png" "app" "/icons" none (by decide) (by decide)⟩

/-- Claim C3: every add_item call yields a Checkmark entry with
checked true when selected is true and a Standard entry otherwise, in
both cases with label equal to the title argument and enabled equal
to the enabled argument. -/
theorem C3_add_item_kind (m : TrayMenu) (menu_id : MenuId) (title : String)
    (accelerators : Option Accelerator) (enabled selected : Bool) (menu_type : MenuType) :
    (m.add_item menu_id title accelerators enabled selected menu_type).2.attrs.inner_item =
      InnerItem.Ksni { item :=
        if selected then KsniMenuItem.Checkmark title enabled true
        else KsniMenuItem.Standard title enabled } := by
  cases selected <;> rfl

/-- Claim C4 concerns intended behavior the code lacks: the protocol
menu query on any tray state panics via todo, add_submenu silently
leaves its receiver untouched, and add_native_item silently returns
None — none of the three surfaces an UnimplementedFeature error. -/
theorem C4_current_behavior :
    KsniTray.menuQuery sampleTray = none ∧
    TrayMenu.new.add_submenu "File" true TrayMenu.new = TrayMenu.new ∧
    TrayMenu.new.add_native_item MenuItem.Quit MenuType.ContextMenu = (TrayMenu.new, none) :=
  ⟨rfl, rfl, rfl⟩

/-- Claim C5: set_menu fully replaces the stored menu — afterwards the
state's menu is exactly the new model (through KsniTray::set_menu and
through the handle-level SystemTray::set_menu alike), and the entries
reachable from the state are exactly the new model's entries, so no
entry of the previous model outside the new one remains reachable. -/
theorem C5_set_menu_replaces (t : KsniTray) (st : SystemTray) (m : TrayMenu) :
    (t.set_menu m).menu = some m ∧
    (SystemTray.set_menu st m).tray_handle.menu = some m ∧
    ∀ e : TrayMenuItem, e ∈ (t.set_menu m).menuEntries ↔ e ∈ m.items :=
  ⟨rfl, rfl, fun e => Iff.rfl⟩

/-- Claim C6: set_icon is idempotent — when the path decomposes,
applying set_icon twice with the same path gives the same state (hence
the same icon_name and icon_theme_path) as applying it once. -/
theorem C6_set_icon_idempotent (t : KsniTray) (icon : String) (p : String × String)
    (h : KsniTray.split_icon icon = some p) :
    (t.set_icon icon).bind (fun t2 => t2.set_icon icon) = t.set_icon icon := by
  simp [KsniTray.set_icon, h]

/-- Witness for C6_set_icon_idempotent on a concrete tray and path. -/
theorem C6_set_icon_idempotent_witness :
    KsniTray.split_icon "/icons/app.png" = some ("app", "/icons") ∧
    (sampleTray.set_icon "/icons/app.png").bind
        (fun t2 => t2.set_icon "/icons/app.png") =
      sampleTray.set_icon "/icons/app.png" :=
  ⟨by decide,
   C6_set_icon_idempotent sampleTray "/icons/app.png" ("app", "/icons") (by decide)⟩

/-- Claim C7 as stated is false: add_item does not make ids unique —
two distinct add_item calls that pass the same menu_id argument yield
entries carrying the same (colliding) id. -/
theorem C7_counterexample :
    (TrayMenu.new.add_item { id := 7 } "Quit" none true false MenuType.ContextMenu).2.attrs.id =
      (TrayMenu.new.add_item { id := 7 } "AutoStart" none true true MenuType.ContextMenu).2.attrs.id := by
  rfl

/-- Claim C7 amended: an entry's id is exactly the caller-supplied
menu_id argument, so ids of two add_item calls collide exactly when
the callers pass equal ids — uniqueness holds only when callers supply
distinct ids and is not enforced by add_item itself. -/
theorem C7_ids_are_caller_supplied (m1 m2 : TrayMenu) (id1 id2 : MenuId)
    (t1 t2 : String) (a1 a2 : Option Accelerator) (e1 e2 s1 s2 : Bool)
    (mt1 mt2 : MenuType) (h : id1 ≠ id2) :
    (m1.add_item id1 t1 a1 e1 s1 mt1).2.attrs.id = id1 ∧
    (m1.add_item id1 t1 a1 e1 s1 mt1).2.attrs.id ≠
      (m2.add_item id2 t2 a2 e2 s2 mt2).2.attrs.id := by
  refine ⟨rfl, ?_⟩
  show id1 ≠ id2
  exact h

/-- Witness for C7_ids_are_caller_supplied at two concrete ids. -/
theorem C7_ids_are_caller_supplied_witness :
    ({ id := 1 } : MenuId) ≠ { id := 2 } ∧
    ((TrayMenu.new.add_item { id := 1 } "Quit" none true false MenuType.ContextMenu).2.attrs.id =
        { id := 1 } ∧
     (TrayMenu.new.add_item { id := 1 } "Quit" none true false MenuType.ContextMenu).2.attrs.id ≠
       (TrayMenu.new.add_item { id := 2 } "AutoStart" none true true MenuType.ContextMenu).2.attrs.id) :=
  ⟨by decide,
   C7_ids_are_caller_supplied TrayMenu.new TrayMenu.new { id := 1 } { id := 2 }
     "Quit" "AutoStart" none none true true false true
     MenuType.ContextMenu MenuType.ContextMenu (by decide)⟩

/-- Claim C8: add_submenu and add_native_item produce no structural
change — the receiver menu is returned untouched, and add_native_item
yields no handle. -/
theorem C8_submenu_native_noops (m sub : TrayMenu) (title : String) (enabled : Bool)
    (item : MenuItem) (mt : MenuType) :
    m.add_submenu title enabled sub = m ∧
    m.add_native_item item mt = (m, none) :=
  ⟨rfl, rfl⟩

/-- Claim C10: add_item never modifies its receiver — any sequence of
add_item calls leaves the menu's entry list exactly as it was, and a
fresh TrayMenu::new still has zero entries after any number of calls
(the created entry lives only in the returned handle). -/
theorem C10_add_item_pure (m : TrayMenu) (calls : List AddItemArgs) :
    TrayMenu.applyAddItems m calls = m ∧
    (TrayMenu.applyAddItems TrayMenu.new calls).items = [] := by
  have h : ∀ (l : List AddItemArgs) (m0 : TrayMenu), TrayMenu.applyAddItems m0 l = m0 := by
    intro l
    induction l with
    | nil => intro m0; rfl
    | cons a as ih => intro m0; exact ih m0
  exact ⟨h calls m, by rw [h calls TrayMenu.new]; rfl⟩

end Tao
